import Mathlib

/-!
Verification of the MSA outlier-detection script (`09_msa_outlier.py`).

The script's pipeline is embedded shallowly:

* floats are modelled as exact rationals (`ℚ`); the IEEE value NaN, which
  arises from `np.mean([])` and from `scipy.stats.zscore` on a zero-variance
  vector, is modelled as `none` in an `Option`;
* a z-score value is either `none` (NaN) or `some (d, v)`, denoting the real
  number `d / Real.sqrt v` (scipy divides by the population standard
  deviation, the square root of the population variance `v`);
* Python exceptions are modelled with `Except PyErr`;
* behaviour of the external libraries (Biopython's
  `DistanceCalculator`/`DistanceMatrix` and `scipy.stats.zscore`) is modelled
  from their documented semantics, as noted at each definition.
-/

namespace MsaOutlier

/-- Kinds of Python exceptions the modelled code can raise: an out-of-range
list index, or a `ValueError` (used by Biopython for an unregistered model
and by the alignment parser for malformed files). -/
inductive PyErr where
  | indexError : PyErr
  | valueError : String → PyErr
deriving DecidableEq

instance {ε α : Type} [DecidableEq ε] [DecidableEq α] : DecidableEq (Except ε α) := fun x y =>
  match x, y with
  | .error a, .error b =>
    if h : a = b then isTrue (by rw [h]) else isFalse (fun hh => h (Except.error.inj hh))
  | .error _, .ok _ => isFalse (fun h => Except.noConfusion h)
  | .ok _, .error _ => isFalse (fun h => Except.noConfusion h)
  | .ok a, .ok b =>
    if h : a = b then isTrue (by rw [h]) else isFalse (fun hh => h (Except.ok.inj hh))

/-- An alignment: an ordered list of records `(identifier, aligned residues)`,
as produced by `AlignIO.read` and consumed by the script. -/
def Alignment : Type := List (String × String)

/-- Biopython's `DistanceMatrix` (a `_Matrix`): sequence names plus a
lower-triangular store, row `i` holding the entries for columns `0..i`. -/
structure DMatrix where
  names : List String
  triangle : List (List ℚ)
deriving DecidableEq

/-- Models `_Matrix.__getitem__` with a pair of integer indices: entry `(i, j)` is
read from the triangular store at row `max i j`, column `min i j`.  A lookup
outside the store is `none`, modelling Python's `IndexError`. -/
def DMatrix.lookup (m : DMatrix) (i j : Nat) : Option ℚ :=
  match m.triangle[max i j]? with
  | none => none
  | some row => row[min i j]?

/-- A well-formed triangular store: row `i` has exactly `i + 1` entries. -/
def DMatrix.wf (m : DMatrix) : Prop :=
  ∀ i row, m.triangle[i]? = some row → row.length = i + 1

/-- The letters Biopython's `DistanceCalculator` skips when scoring
(`skip_letters` defaults to gap and stop symbols). -/
def skipLetters : List Char := ['-', '*']

/-- Models `DistanceCalculator._pairwise` for the identity model: the score is the
number of aligned positions with equal, non-skipped letters; `max_score` is
the full length of the first sequence; a zero `max_score` yields the maximal
distance 1, otherwise `1 - score / max_score`. -/
def pairwiseDist (s1 s2 : String) : ℚ :=
  let score := ((s1.toList.zip s2.toList).filter
    (fun p => p.1 = p.2 ∧ p.1 ∉ skipLetters ∧ p.2 ∉ skipLetters)).length
  let maxScore := s1.length
  if maxScore = 0 then 1 else 1 - (score : ℚ) / (maxScore : ℚ)

/-- Residue string of record `i` (total, with an irrelevant default). -/
def seqAt (aln : Alignment) (i : Nat) : String :=
  (List.map (fun r => r.2) aln).getD i ""

/-- Models `DistanceCalculator.get_distance`: builds the triangular matrix, the
diagonal staying at its initial 0 and entry `(i, j)` for `j < i` being
`_pairwise(seq_i, seq_j)`.  Storage is positional (exact for the spec's
unique-identifier inputs). -/
def getDistance (aln : Alignment) : DMatrix :=
  { names := List.map (fun r => r.1) aln,
    triangle := (List.range aln.length).map (fun i =>
      (List.range (i + 1)).map (fun j =>
        if j = i then 0 else pairwiseDist (seqAt aln i) (seqAt aln j))) }

/-- The model registry of Biopython's `DistanceCalculator`
(`["identity"] + dna_models + protein_models`). -/
def supportedModels : List String :=
  ["identity", "blastn", "trans",
   "benner6", "benner22", "benner74", "blosum45", "blosum50", "blosum62",
   "blosum80", "blosum90", "dayhoff", "feng", "fitch", "genetic",
   "gonnet1992", "grant", "ident", "johnson", "levin", "mclach", "miyata",
   "nwsgappep", "pam120", "pam180", "pam250", "pam30", "pam300", "pam60",
   "pam70", "pam90", "rao", "risler", "structure"]

/-- Models `load_alignment`: wraps the external `AlignIO.read` in
`try/except`; the argument is the outcome of that external parse.  Any
exception is caught, printed, and turned into `None`. -/
def load_alignment (parsed : Except PyErr Alignment) : Option Alignment :=
  match parsed with
  | .ok a => some a
  | .error _ => none

/-- Models `calculate_distance_matrix`: `DistanceCalculator(model)` is constructed
before the `try` block, so an unregistered model raises a `ValueError` that
propagates; for a registered model the (modelled, total) `get_distance`
runs inside `try`, a failure there would be caught and become `None`. -/
def calculate_distance_matrix (aln : Alignment) (model : String) :
    Except PyErr (Option DMatrix) :=
  if model ∈ supportedModels then .ok (some (getDistance aln))
  else .error (.valueError "Model not supported")

/-- The list comprehension
`[distance_matrix[i, j] for j in range(n) if i != j]` over a given column
list: `none` as soon as one lookup raises `IndexError`. -/
def collectRow (m : DMatrix) (i : Nat) : List Nat → Option (List ℚ)
  | [] => some []
  | j :: js =>
    match m.lookup i j, collectRow m i js with
    | some d, some ds => some (d :: ds)
    | _, _ => none

/-- Models `np.mean` on a list: the arithmetic mean, or NaN (`none`) for the empty
list. -/
def npMean (xs : List ℚ) : Option ℚ :=
  if xs.isEmpty then none else some (xs.sum / (xs.length : ℚ))

/-- The `for i in range(n)` loop of `analyze_distances` building
`avg_distances`; an `IndexError` inside a row aborts the whole loop. -/
def avgLoop (m : DMatrix) (n : Nat) : List Nat → Except PyErr (List (Option ℚ))
  | [] => .ok []
  | i :: is =>
    match collectRow m i ((List.range n).filter (fun j => i != j)) with
    | none => .error .indexError
    | some ds =>
      match avgLoop m n is with
      | .error e => .error e
      | .ok rest => .ok (npMean ds :: rest)

/-- Builds `avg_distances` of `analyze_distances` for `n` sequence ids. -/
def avgDistances (m : DMatrix) (n : Nat) : Except PyErr (List (Option ℚ)) :=
  avgLoop m n (List.range n)

/-- Population mean (`np.mean`) of a rational vector; 0 for the empty one. -/
def popMean (xs : List ℚ) : ℚ := xs.sum / (xs.length : ℚ)

/-- Population variance (`np.std(xs) ** 2`, divisor `N`, ddof = 0). -/
def popVar (xs : List ℚ) : ℚ :=
  ((xs.map (fun x => (x - popMean xs) ^ 2)).sum) / (xs.length : ℚ)

/-- Returns `some` iff no entry is NaN. -/
def allSome : List (Option ℚ) → Option (List ℚ)
  | [] => some []
  | none :: _ => none
  | some x :: xs =>
    match allSome xs with
    | none => none
    | some ys => some (x :: ys)

/-- Models `scipy.stats.zscore` (ddof = 0): every entry is NaN (`none`) when the
input contains a NaN or has zero population variance (division `0 / 0`);
otherwise entry `x` becomes `(x - mean) / std`, encoded as
`some (x - mean, variance)` and denoting `(x - mean) / Real.sqrt variance`. -/
def zscore (xs : List (Option ℚ)) : List (Option (ℚ × ℚ)) :=
  match allSome xs with
  | none => xs.map (fun _ => none)
  | some vs =>
    if popVar vs = 0 then xs.map (fun _ => none)
    else vs.map (fun x => some (x - popMean vs, popVar vs))

/-- The Python comparison `z_score > z_threshold`: `False` when the z-score
is NaN; for `some (d, v)` (with `0 < v`, as produced by `zscore`) a
decidable rational form of `d / Real.sqrt v > t`. -/
def zGtB : Option (ℚ × ℚ) → ℚ → Bool
  | none, _ => false
  | some (d, v), t =>
    if 0 ≤ t then decide (0 < d ∧ t ^ 2 * v < d ^ 2)
    else if 0 ≤ d then true
    else decide (d ^ 2 < t ^ 2 * v)

/-- The triple returned by `analyze_distances`:
`(outliers, avg_distances, z_scores)`. -/
structure AnalyzeResult where
  outliers : List (String × Option ℚ × Option (ℚ × ℚ))
  avg_distances : List (Option ℚ)
  z_scores : List (Option (ℚ × ℚ))
deriving DecidableEq

/-- Models `analyze_distances(distance_matrix, sequence_ids, z_threshold)`:
per-sequence mean distances, scipy z-scores, and the subset with
`z_score > z_threshold`. -/
def analyze_distances (dm : DMatrix) (ids : List String) (t : ℚ) :
    Except PyErr AnalyzeResult :=
  match avgDistances dm ids.length with
  | .error e => .error e
  | .ok avgs =>
    let zs := zscore avgs
    .ok ⟨(ids.zip (avgs.zip zs)).filter (fun e => zGtB e.2.2 t), avgs, zs⟩

/-- Denotation of the strict comparison the spec states: the z-score is a
real number strictly greater than the threshold (false for NaN). -/
def zDenotGt (z : Option (ℚ × ℚ)) (t : ℚ) : Prop :=
  ∃ d v, z = some (d, v) ∧ (t : ℝ) < (d : ℝ) / Real.sqrt (v : ℝ)

/-- Denotation of "the z-score is exactly the real number 0". -/
def zIsZero (z : Option (ℚ × ℚ)) : Prop :=
  ∃ v, 0 < v ∧ z = some (0, v)

/-- The per-file result dictionary built by `process_alignment_file`. -/
structure AlignResult where
  alignment_name : String
  file_path : String
  num_sequences : Nat
  alignment_length : Nat
  outliers : List (String × Option ℚ × Option (ℚ × ℚ))
  plot_path : Option String
deriving DecidableEq

/-- Models `MultipleSeqAlignment.get_alignment_length`: the maximal record
length. -/
def alignmentLength (aln : Alignment) : Nat :=
  (List.map (fun r => r.2.length) aln).foldr max 0

/-- Computes `os.path.basename(file_path).split('.')[0]` (POSIX separators). -/
def alignmentNameOf (file_path : String) : String :=
  (((file_path.splitOn "/").getLastD "").splitOn ".").headD ""

/-- Models `process_alignment_file`: load (a caught failure gives `None`),
compute the identity distance matrix (a caught failure gives `None`),
analyze, and assemble the result dictionary.  The plotting branch is not
modelled (`generate_plot = False`), so `plot_path` stays `None`;
an uncaught exception propagates in the `.error` case. -/
def process_alignment_file (parsed : Except PyErr Alignment)
    (file_path : String) (t : ℚ) : Except PyErr (Option AlignResult) :=
  match load_alignment parsed with
  | none => .ok none
  | some aln =>
    match calculate_distance_matrix aln "identity" with
    | .error e => .error e
    | .ok none => .ok none
    | .ok (some dm) =>
      match analyze_distances dm (List.map (fun r => r.1) aln) t with
      | .error e => .error e
      | .ok r =>
        .ok (some
          { alignment_name := alignmentNameOf file_path,
            file_path := file_path,
            num_sequences := aln.length,
            alignment_length := alignmentLength aln,
            outliers := r.outliers,
            plot_path := none })

/-- The separator `f.write("\n" + "-" * 50 + "\n\n")`. -/
def sepLine : String := "\n--------------------------------------------------\n\n"

/-- The per-alignment "no outliers" line of the report. -/
def noOutlierLine : String := "\nNo outlier sequences detected.\n"

/-- The whole-run "no outliers" line of the report. -/
def noOutlierFooter : String := "No outlier sequences were detected in any alignments.\n"

/-- The chunks `write_report` writes for one processed result.  The
formatting of a single outlier line (`"  - id: Avg Distance = ..."`, which
renders floats to four decimals) is abstracted as `fmt`. -/
def reportSection (fmt : String × Option ℚ × Option (ℚ × ℚ) → String)
    (r : AlignResult) : List String :=
  ["Alignment: " ++ r.alignment_name ++ "\n",
   "File: " ++ r.file_path ++ "\n",
   "Sequences: " ++ toString r.num_sequences ++ "\n",
   "Alignment Length: " ++ toString r.alignment_length ++ "\n"]
  ++ (if r.outliers.isEmpty then [noOutlierLine]
      else ["\nPotential outlier sequences:\n"] ++ r.outliers.map fmt
        ++ (match r.plot_path with
            | some p => if p.isEmpty then [] else ["\nDistance plot saved to: " ++ p ++ "\n"]
            | none => []))
  ++ [sepLine]

/-- Models `write_report`: the ordered list of chunks written to
`outlier_report.txt`.  `None` entries of `results` are skipped by the
`continue`; `found_outliers` is set only when a processed result has a
non-empty outlier list, and controls the final footer. -/
def write_report (fmt : String × Option ℚ × Option (ℚ × ℚ) → String)
    (results : List (Option AlignResult)) : List String :=
  ["OUTLIER SEQUENCE ANALYSIS REPORT\n", "===============================\n\n"]
  ++ (results.filterMap id).flatMap (reportSection fmt)
  ++ (if (results.filterMap id).all (fun r => r.outliers.isEmpty)
      then [noOutlierFooter] else [])

/-- The spec's concrete scenario: `A = B = C = "AAAA"`, `D = "TTTT"`. -/
def alnABCD : Alignment :=
  [("A", "AAAA"), ("B", "AAAA"), ("C", "AAAA"), ("D", "TTTT")]

/-- Identity distance matrix of `alnABCD`. -/
def dmABCD : DMatrix := getDistance alnABCD

theorem popVar_nonneg (xs : List ℚ) : 0 ≤ popVar xs := by
  unfold popVar
  apply div_nonneg
  · apply List.sum_nonneg
    intro x hx
    obtain ⟨y, _, rfl⟩ := List.mem_map.mp hx
    positivity
  · exact Nat.cast_nonneg _

/-- Every non-NaN z-score produced by `zscore` carries a positive
variance. -/
theorem zscore_var_pos {xs : List (Option ℚ)} {z : Option (ℚ × ℚ)}
    (hz : z ∈ zscore xs) {d v : ℚ} (he : z = some (d, v)) : 0 < v := by
  cases hall : allSome xs with
  | none =>
    have hz2 : z ∈ xs.map (fun _ => (none : Option (ℚ × ℚ))) := by
      unfold zscore at hz
      rw [hall] at hz
      exact hz
    obtain ⟨_, _, hzz⟩ := List.mem_map.mp hz2
    rw [he] at hzz
    exact absurd hzz (by simp)
  | some vs =>
    have hz2 : z ∈ (if popVar vs = 0 then xs.map (fun _ => (none : Option (ℚ × ℚ)))
        else vs.map (fun x => some (x - popMean vs, popVar vs))) := by
      unfold zscore at hz
      rw [hall] at hz
      exact hz
    by_cases hvar : popVar vs = 0
    · rw [if_pos hvar] at hz2
      obtain ⟨_, _, hzz⟩ := List.mem_map.mp hz2
      rw [he] at hzz
      exact absurd hzz (by simp)
    · rw [if_neg hvar] at hz2
      obtain ⟨x, _, hzz⟩ := List.mem_map.mp hz2
      rw [he] at hzz
      have hv : popVar vs = v := congrArg Prod.snd (Option.some.inj hzz)
      rw [← hv]
      exact lt_of_le_of_ne (popVar_nonneg vs) (Ne.symm hvar)

/-- Lemma: `zGtB` decides the real comparison `z > t` for a non-NaN z-score
`some (d, v)` denoting `d / Real.sqrt v`. -/
theorem zGtB_eq_true_iff {d v t : ℚ} (hv : 0 < v) :
    zGtB (some (d, v)) t = true ↔ (t : ℝ) < (d : ℝ) / Real.sqrt (v : ℝ) := by
  have hvR : (0:ℝ) < (v:ℝ) := by exact_mod_cast hv
  have hs : (0:ℝ) < Real.sqrt (v:ℝ) := Real.sqrt_pos.mpr hvR
  have hsq : Real.sqrt (v:ℝ) ^ 2 = (v:ℝ) := Real.sq_sqrt hvR.le
  rw [lt_div_iff₀ hs]
  by_cases ht : 0 ≤ t
  · have htR : (0:ℝ) ≤ (t:ℝ) := by exact_mod_cast ht
    have hts : 0 ≤ (t:ℝ) * Real.sqrt (v:ℝ) := mul_nonneg htR hs.le
    simp only [zGtB, if_pos ht, decide_eq_true_eq]
    constructor
    · rintro ⟨hd, hlt⟩
      have hdR : (0:ℝ) < (d:ℝ) := by exact_mod_cast hd
      have hltR : (t:ℝ) ^ 2 * (v:ℝ) < (d:ℝ) ^ 2 := by exact_mod_cast hlt
      nlinarith [hsq, hts, hdR]
    · intro h
      have hdR : (0:ℝ) < (d:ℝ) := lt_of_le_of_lt hts h
      refine ⟨by exact_mod_cast hdR, ?_⟩
      have : (t:ℝ) ^ 2 * (v:ℝ) < (d:ℝ) ^ 2 := by nlinarith [hsq, hts]
      exact_mod_cast this
  · have htR : (t:ℝ) < 0 := by exact_mod_cast lt_of_not_ge ht
    have hts : (t:ℝ) * Real.sqrt (v:ℝ) < 0 := mul_neg_of_neg_of_pos htR hs
    by_cases hd : 0 ≤ d
    · have hdR : (0:ℝ) ≤ (d:ℝ) := by exact_mod_cast hd
      simp only [zGtB, if_neg ht, if_pos hd, true_iff]
      exact lt_of_lt_of_le hts hdR
    · have hdR : (d:ℝ) < 0 := by exact_mod_cast lt_of_not_ge hd
      simp only [zGtB, if_neg ht, if_neg hd, decide_eq_true_eq]
      constructor
      · intro h
        have hR : (d:ℝ) ^ 2 < (t:ℝ) ^ 2 * (v:ℝ) := by exact_mod_cast h
        nlinarith [hsq, hts, hdR]
      · intro h
        have hR : (d:ℝ) ^ 2 < (t:ℝ) ^ 2 * (v:ℝ) := by nlinarith [hsq, hts, hdR]
        exact_mod_cast hR

/-- Raising the threshold can only turn the comparison from true to false,
never the reverse (for any z-score value, NaN included). -/
theorem zGtB_anti {z : Option (ℚ × ℚ)} {t₁ t₂ : ℚ} (hle : t₁ ≤ t₂)
    (h : zGtB z t₂ = true) : zGtB z t₁ = true := by
  match z with
  | none => simp [zGtB] at h
  | some (d, v) =>
    by_cases h1 : 0 ≤ t₁
    · have h2 : 0 ≤ t₂ := le_trans h1 hle
      simp only [zGtB, if_pos h1, if_pos h2, decide_eq_true_eq] at h ⊢
      obtain ⟨hd, hlt⟩ := h
      refine ⟨hd, ?_⟩
      rcases le_or_lt v 0 with hv | hv
      · nlinarith
      · have hp : t₁ ^ 2 ≤ t₂ ^ 2 := pow_le_pow_left₀ h1 hle 2
        nlinarith [mul_le_mul_of_nonneg_right hp hv.le]
    · by_cases h2 : 0 ≤ t₂
      · simp only [zGtB, if_pos h2, decide_eq_true_eq] at h
        simp only [zGtB, if_neg h1, if_pos h.1.le]
      · simp only [zGtB, if_neg h1, if_neg h2, decide_eq_true_eq] at h ⊢
        by_cases hd : 0 ≤ d
        · simp only [if_pos hd]
        · simp only [if_neg hd] at h ⊢
          rw [decide_eq_true_eq] at h ⊢
          have ht2 : t₂ < 0 := lt_of_not_ge h2
          have ht1 : t₁ < 0 := lt_of_le_of_lt hle ht2
          have hv : 0 < v := by nlinarith [sq_nonneg d, sq_nonneg t₂]
          have hp : t₂ ^ 2 ≤ t₁ ^ 2 := by
            have := pow_le_pow_left₀ (by linarith : (0:ℚ) ≤ -t₂) (by linarith : -t₂ ≤ -t₁) 2
            simpa [neg_sq] using this
          nlinarith [mul_le_mul_of_nonneg_right hp hv.le]

theorem allSome_replicate (n : Nat) (c : ℚ) :
    allSome (List.replicate n (some c)) = some (List.replicate n c) := by
  induction n with
  | zero => rfl
  | succ k ih => simp [List.replicate_succ, allSome, ih]

theorem popMean_replicate {n : Nat} (hn : 0 < n) (c : ℚ) :
    popMean (List.replicate n c) = c := by
  have hne : ((n : ℚ)) ≠ 0 := by
    exact_mod_cast Nat.pos_iff_ne_zero.mp hn
  unfold popMean
  rw [List.sum_replicate, List.length_replicate, nsmul_eq_mul, mul_comm,
    mul_div_assoc, div_self hne, mul_one]

theorem popVar_replicate (n : Nat) (c : ℚ) : popVar (List.replicate n c) = 0 := by
  rcases Nat.eq_zero_or_pos n with hn | hn
  · subst hn
    simp [popVar, popMean]
  · unfold popVar
    rw [popMean_replicate hn, List.map_replicate]
    simp

theorem zscore_replicate (n : Nat) (c : ℚ) :
    zscore (List.replicate n (some c)) = List.replicate n none := by
  unfold zscore
  rw [allSome_replicate]
  simp [popVar_replicate, List.map_replicate]

/-- Claim C2, counterexample to the claim as stated: on a two-sequence
input whose mean distances coincide (`σ = 0`), the code's z-scores are NaN
(modelled `none`), not the value 0: `scipy.stats.zscore` divides `0 / 0`
here.  The outlier set is empty, but no z-score is "exactly 0". -/
theorem claim_C2_counterexample :
    analyze_distances ⟨["a", "b"], [[0], [1/2, 0]]⟩ ["a", "b"] 3 =
      .ok ⟨[], [some (1/2), some (1/2)], [none, none]⟩ ∧
    ¬ zIsZero none := by
  constructor
  · with_unfolding_all rfl
  · rintro ⟨v, _, hv⟩
    exact Option.noConfusion hv

/-- Claim C2 (amended): for every distance matrix whose per-sequence mean
distances all coincide (population standard deviation 0, including N
identical sequences), `analyze_distances` returns a NaN (`none`) z-score
for every sequence — not 0 — and an empty outlier set, regardless of the
threshold value. -/
theorem claim_C2 (dm : DMatrix) (ids : List String) (t c : ℚ)
    (h : avgDistances dm ids.length = .ok (List.replicate ids.length (some c))) :
    analyze_distances dm ids t =
      .ok ⟨[], List.replicate ids.length (some c),
        List.replicate ids.length none⟩ := by
  unfold analyze_distances
  rw [h]
  show (Except.ok (AnalyzeResult.mk
      ((ids.zip ((List.replicate ids.length (some c)).zip
        (zscore (List.replicate ids.length (some c))))).filter
          (fun e => zGtB e.2.2 t))
      (List.replicate ids.length (some c))
      (zscore (List.replicate ids.length (some c)))) : Except PyErr AnalyzeResult) = _
  rw [zscore_replicate]
  have hfil : (ids.zip ((List.replicate ids.length (some c)).zip
      (List.replicate ids.length (none : Option (ℚ × ℚ))))).filter
        (fun e => zGtB e.2.2 t) = [] := by
    rw [List.filter_eq_nil_iff]
    rintro ⟨a, b, z⟩ hmem
    have h1 := (List.of_mem_zip hmem).2
    have h2 := (List.of_mem_zip h1).2
    have h3 : z = none := List.eq_of_mem_replicate h2
    subst h3
    simp [zGtB]
  rw [hfil]

/-- Claim C2 witness: a concrete zero-variance run, pushed through the
amended theorem. -/
theorem claim_C2_witness :
    analyze_distances ⟨["a", "b"], [[0], [1/3, 0]]⟩ ["a", "b"] 3 =
      .ok ⟨[], List.replicate 2 (some (1/3)), List.replicate 2 none⟩ := by
  have h : avgDistances (⟨["a", "b"], [[0], [1/3, 0]]⟩ : DMatrix) 2 =
      .ok (List.replicate 2 (some (1/3))) := by
    with_unfolding_all rfl
  exact claim_C2 ⟨["a", "b"], [[0], [1/3, 0]]⟩ ["a", "b"] 3 (1/3) h

/-- Claim C3, counterexample to the claim as stated: on the distance matrix
of a one-sequence alignment and its single sequence id,
`analyze_distances` returns a normal result — empty outlier list and NaN
(`none`) mean and z-score — rather than failing; no `InsufficientDataError`
exists anywhere in the code. -/
theorem claim_C3_counterexample :
    analyze_distances (getDistance [("A", "ACGT")]) ["A"] 3 =
      .ok ⟨[], [none], [none]⟩ := by
  with_unfolding_all rfl

/-- Claim C3 (amended): for fewer than two sequences `analyze_distances`
does not fail: for every distance matrix and threshold it returns an empty
outlier list with a NaN mean distance and z-score when N = 1 (the row mean
is `np.mean([])`), and empty lists when N = 0. -/
theorem claim_C3 (dm : DMatrix) (s : String) (t : ℚ) :
    analyze_distances dm [s] t = .ok ⟨[], [none], [none]⟩ ∧
    analyze_distances dm [] t = .ok ⟨[], [], []⟩ := by
  constructor
  · with_unfolding_all rfl
  · with_unfolding_all rfl

/-- The mean-distance and z-score vectors of `alnABCD`, and its outcome at
threshold 3.0: `avg = [1/3, 1/3, 1/3, 1]`, population variance `1/12`, no
outlier. -/
def resABCD3 : AnalyzeResult :=
  ⟨[], [some (1/3), some (1/3), some (1/3), some 1],
    [some (-(1/6), 1/12), some (-(1/6), 1/12), some (-(1/6), 1/12),
     some (1/2, 1/12)]⟩

/-- The outcome of `alnABCD` at threshold 1.5: exactly `D` is flagged. -/
def resABCD15 : AnalyzeResult :=
  ⟨[("D", some 1, some (1/2, 1/12))],
    [some (1/3), some (1/3), some (1/3), some 1],
    [some (-(1/6), 1/12), some (-(1/6), 1/12), some (-(1/6), 1/12),
     some (1/2, 1/12)]⟩

/-- Claim C1: on the alignment A = B = C = "AAAA", D = "TTTT" under the
identity model, the pipeline computes mean distances 1/3, 1/3, 1/3 and 1;
the z-scores carry the population variance 1/12 of these means (divisor
N = 4 — the sample variance would be 1/9), so z(D) denotes
(1 - 1/2) / sqrt (1/12) = sqrt 3 ≈ 1.732; at threshold 3.0 nothing is
flagged, at threshold 1.5 exactly D is flagged. -/
theorem claim_C1 :
    calculate_distance_matrix alnABCD "identity" = .ok (some dmABCD) ∧
    analyze_distances dmABCD ["A", "B", "C", "D"] 3 = .ok resABCD3 ∧
    analyze_distances dmABCD ["A", "B", "C", "D"] (3/2) = .ok resABCD15 ∧
    ((1/2 : ℚ) : ℝ) / Real.sqrt ((1/12 : ℚ) : ℝ) = Real.sqrt 3 ∧
    (1.732 : ℝ) < Real.sqrt 3 ∧ Real.sqrt 3 < (1.7325 : ℝ) := by
  refine ⟨by with_unfolding_all rfl, by with_unfolding_all rfl,
    by with_unfolding_all rfl, ?_, ?_, ?_⟩
  · have hc : ((1/12 : ℚ) : ℝ) = 1/12 := by norm_num
    have hc2 : ((1/2 : ℚ) : ℝ) = 1/2 := by norm_num
    rw [hc, hc2]
    have h0 : (0:ℝ) ≤ (1/2 : ℝ) / Real.sqrt (1/12) := by positivity
    have hsq : ((1/2 : ℝ) / Real.sqrt (1/12)) ^ 2 = 3 := by
      rw [div_pow, Real.sq_sqrt (by norm_num : (0:ℝ) ≤ 1/12)]
      norm_num
    rw [← Real.sqrt_sq h0, hsq]
  · exact (Real.lt_sqrt (by norm_num)).mpr (by norm_num)
  · exact (Real.sqrt_lt' (by norm_num)).mpr (by norm_num)

/-- Shape of every successful `analyze_distances` call. -/
theorem analyze_ok_inv {dm : DMatrix} {ids : List String} {t : ℚ}
    {r : AnalyzeResult} (h : analyze_distances dm ids t = .ok r) :
    ∃ avgs, avgDistances dm ids.length = .ok avgs ∧
      r = ⟨(ids.zip (avgs.zip (zscore avgs))).filter (fun e => zGtB e.2.2 t),
        avgs, zscore avgs⟩ := by
  unfold analyze_distances at h
  cases heq : avgDistances dm ids.length with
  | error e =>
    rw [heq] at h
    exact Except.noConfusion h
  | ok avgs =>
    rw [heq] at h
    exact ⟨avgs, rfl, (Except.ok.inj h).symm⟩

/-- Claim C6: in every successful run, a triple is in the outlier list iff
it is one of the zipped (id, mean distance, z-score) triples and its
z-score denotes a real number strictly greater than the threshold.  A NaN
z-score is never flagged, and a z-score equal to the threshold is not
flagged (the inequality is strict). -/
theorem claim_C6 (dm : DMatrix) (ids : List String) (t : ℚ)
    (r : AnalyzeResult) (h : analyze_distances dm ids t = .ok r)
    (e : String × Option ℚ × Option (ℚ × ℚ)) :
    e ∈ r.outliers ↔
      e ∈ ids.zip (r.avg_distances.zip r.z_scores) ∧ zDenotGt e.2.2 t := by
  obtain ⟨avgs, havg, hr⟩ := analyze_ok_inv h
  subst hr
  obtain ⟨a, b, z⟩ := e
  show (a, b, z) ∈ List.filter _ _ ↔ _
  rw [List.mem_filter]
  constructor
  · rintro ⟨hzip, hgt⟩
    refine ⟨hzip, ?_⟩
    have h2 : (b, z) ∈ avgs.zip (zscore avgs) := (List.of_mem_zip hzip).2
    have h3 : z ∈ zscore avgs := (List.of_mem_zip h2).2
    cases z with
    | none => simp [zGtB] at hgt
    | some p =>
      obtain ⟨d, v⟩ := p
      have hv : 0 < v := zscore_var_pos h3 rfl
      exact ⟨d, v, rfl, (zGtB_eq_true_iff hv).mp hgt⟩
  · rintro ⟨hzip, d, v, hz, hlt⟩
    refine ⟨hzip, ?_⟩
    have h2 : (b, z) ∈ avgs.zip (zscore avgs) := (List.of_mem_zip hzip).2
    have h3 : z ∈ zscore avgs := (List.of_mem_zip h2).2
    have hz2 : z = some (d, v) := hz
    have hv : 0 < v := zscore_var_pos h3 hz2
    show zGtB z t = true
    rw [hz2]
    exact (zGtB_eq_true_iff hv).mpr hlt

/-- Claim C6 witness: in the concrete 1.5-threshold run on `alnABCD`, the
triple for D is an outlier, via the characterization (its z-score denotes
sqrt 3 > 1.5). -/
theorem claim_C6_witness :
    ("D", some (1:ℚ), some ((1/2 : ℚ), (1/12 : ℚ))) ∈ resABCD15.outliers := by
  have h : analyze_distances dmABCD ["A", "B", "C", "D"] (3/2) =
      .ok resABCD15 := by
    with_unfolding_all rfl
  apply (claim_C6 dmABCD ["A", "B", "C", "D"] (3/2) resABCD15 h
    ("D", some 1, some (1/2, 1/12))).mpr
  constructor
  · show _ ∈ List.zip _ _
    with_unfolding_all decide
  · refine ⟨1/2, 1/12, rfl, ?_⟩
    have hc : ((1/12 : ℚ) : ℝ) = 1/12 := by norm_num
    have hc2 : ((1/2 : ℚ) : ℝ) = 1/2 := by norm_num
    have hc3 : ((3/2 : ℚ) : ℝ) = 3/2 := by norm_num
    rw [hc, hc2, hc3]
    have hs : (0:ℝ) < Real.sqrt (1/12) := Real.sqrt_pos.mpr (by norm_num)
    have hlt : Real.sqrt (1/12) < 1/3 :=
      (Real.sqrt_lt' (by norm_num)).mpr (by norm_num)
    calc (3/2 : ℝ) = (1/2) / (1/3) := by norm_num
    _ < (1/2) / Real.sqrt (1/12) :=
        div_lt_div_of_pos_left (by norm_num) hs hlt

/-- Claim C7: the outlier set is antitone in the threshold: for t₁ ≤ t₂, a
successful run at t₂ succeeds at t₁ with the same means and z-scores, and
every outlier at t₂ is an outlier at t₁. -/
theorem claim_C7 (dm : DMatrix) (ids : List String) (t₁ t₂ : ℚ)
    (r₂ : AnalyzeResult) (hle : t₁ ≤ t₂)
    (h : analyze_distances dm ids t₂ = .ok r₂) :
    ∃ r₁, analyze_distances dm ids t₁ = .ok r₁ ∧
      r₁.avg_distances = r₂.avg_distances ∧ r₁.z_scores = r₂.z_scores ∧
      ∀ e, e ∈ r₂.outliers → e ∈ r₁.outliers := by
  obtain ⟨avgs, havg, hr⟩ := analyze_ok_inv h
  subst hr
  refine ⟨⟨(ids.zip (avgs.zip (zscore avgs))).filter (fun e => zGtB e.2.2 t₁),
    avgs, zscore avgs⟩, ?_, rfl, rfl, ?_⟩
  · unfold analyze_distances
    rw [havg]
  · intro e he
    obtain ⟨hzip, hgt⟩ := List.mem_filter.mp he
    exact List.mem_filter.mpr ⟨hzip, zGtB_anti hle hgt⟩

/-- Claim C7 witness: the 3.0-threshold run on `alnABCD` (no outlier)
compared against threshold 1.5 through the monotonicity theorem. -/
theorem claim_C7_witness :
    ∃ r₁, analyze_distances dmABCD ["A", "B", "C", "D"] (3/2) = .ok r₁ ∧
      r₁.avg_distances = resABCD3.avg_distances ∧
      r₁.z_scores = resABCD3.z_scores ∧
      ∀ e, e ∈ resABCD3.outliers → e ∈ r₁.outliers := by
  apply claim_C7 dmABCD ["A", "B", "C", "D"] (3/2) 3 resABCD3
  · norm_num
  · with_unfolding_all rfl

theorem score_le_length (s1 s2 : String) (p : Char × Char → Bool) :
    ((s1.toList.zip s2.toList).filter p).length ≤ s1.length :=
  le_trans (List.length_filter_le p _)
    (by rw [List.length_zip]; exact Nat.min_le_left _ _)

theorem pairwiseDist_unit (s1 s2 : String) :
    0 ≤ pairwiseDist s1 s2 ∧ pairwiseDist s1 s2 ≤ 1 := by
  unfold pairwiseDist
  by_cases h0 : s1.length = 0
  · simp [h0]
  · simp only [if_neg h0]
    have hL : (0:ℚ) < (s1.length : ℚ) := by
      exact_mod_cast Nat.pos_of_ne_zero h0
    refine ⟨?_, ?_⟩
    · rw [sub_nonneg, div_le_one hL]
      exact_mod_cast score_le_length s1 s2 _
    · have hnn : (0:ℚ) ≤
          ((((s1.toList.zip s2.toList).filter (fun p =>
            decide (p.1 = p.2 ∧ p.1 ∉ skipLetters ∧ p.2 ∉ skipLetters))).length : ℚ))
          / (s1.length : ℚ) := by positivity
      linarith

theorem getDistance_triangle_row (aln : Alignment) {i : Nat}
    (hi : i < aln.length) :
    (getDistance aln).triangle[i]? =
      some ((List.range (i + 1)).map (fun j =>
        if j = i then 0 else pairwiseDist (seqAt aln i) (seqAt aln j))) := by
  unfold getDistance
  simp [List.getElem?_range hi]

theorem getDistance_lookup (aln : Alignment) {i j : Nat}
    (hi : i < aln.length) (hj : j < aln.length) :
    (getDistance aln).lookup i j =
      some (if min i j = max i j then 0
        else pairwiseDist (seqAt aln (max i j)) (seqAt aln (min i j))) := by
  unfold DMatrix.lookup
  have hmax : max i j < aln.length := by omega
  rw [getDistance_triangle_row aln hmax]
  show ((List.range (max i j + 1)).map (fun j2 =>
    if j2 = max i j then 0
    else pairwiseDist (seqAt aln (max i j)) (seqAt aln j2)))[min i j]? = _
  have hmin : min i j < max i j + 1 := by omega
  simp [List.getElem?_range hmin]

/-- Claim C8: building under the identity model succeeds, and the built
matrix is exactly symmetric (lookup mirrors the triangular store), has a
zero diagonal, and every entry is defined and lies in [0, 1]. -/
theorem claim_C8 (aln : Alignment) (i j : Nat)
    (hi : i < aln.length) (hj : j < aln.length) :
    calculate_distance_matrix aln "identity" = .ok (some (getDistance aln)) ∧
    (getDistance aln).lookup i j = (getDistance aln).lookup j i ∧
    (getDistance aln).lookup i i = some 0 ∧
    ∃ q, (getDistance aln).lookup i j = some q ∧ 0 ≤ q ∧ q ≤ 1 := by
  refine ⟨by with_unfolding_all rfl, ?_, ?_, ?_⟩
  · unfold DMatrix.lookup
    rw [Nat.max_comm i j, Nat.min_comm i j]
  · rw [getDistance_lookup aln hi hi]
    simp
  · refine ⟨_, getDistance_lookup aln hi hj, ?_, ?_⟩
    · by_cases hc : min i j = max i j
      · simp [hc]
      · simp only [if_neg hc]
        exact (pairwiseDist_unit _ _).1
    · by_cases hc : min i j = max i j
      · simp [hc]
      · simp only [if_neg hc]
        exact (pairwiseDist_unit _ _).2

/-- Claim C8 witness: the invariants at the concrete alignment `alnABCD`,
entries (0, 3) and the diagonal. -/
theorem claim_C8_witness :
    calculate_distance_matrix alnABCD "identity" =
      .ok (some (getDistance alnABCD)) ∧
    (getDistance alnABCD).lookup 0 3 = (getDistance alnABCD).lookup 3 0 ∧
    (getDistance alnABCD).lookup 0 0 = some 0 ∧
    ∃ q, (getDistance alnABCD).lookup 0 3 = some q ∧ 0 ≤ q ∧ q ≤ 1 :=
  claim_C8 alnABCD 0 3 (by decide) (by decide)

/-- Claim C4, counterexample to the claim as stated: a malformed alignment
file makes the external parser raise, `load_alignment` catches every
exception and hands `None` to its caller — the specific error kind is
discarded, not returned. -/
theorem claim_C4_counterexample :
    load_alignment (.error (.valueError "file could not be parsed")) = none := rfl

/-- Claim C4 (amended): an unregistered model does make build fail — the
`ValueError` from `DistanceCalculator(model)` is raised before the `try`
block and propagates — but load failures are caught and returned to the
caller as `None`, without the specific error kind. -/
theorem claim_C4 :
    (∀ (aln : Alignment) (model : String), model ∉ supportedModels →
      calculate_distance_matrix aln model =
        .error (.valueError "Model not supported")) ∧
    (∀ e : PyErr, load_alignment (.error e) = none) := by
  constructor
  · intro aln model hm
    unfold calculate_distance_matrix
    rw [if_neg hm]
  · intro e
    rfl

/-- Claim C4 witness: the unknown model "gtr" on an empty alignment, and a
caught `IndexError`, through the amended theorem. -/
theorem claim_C4_witness :
    calculate_distance_matrix ([] : Alignment) "gtr" =
      .error (.valueError "Model not supported") ∧
    load_alignment (.error .indexError) = none := by
  constructor
  · exact claim_C4.1 [] "gtr" (by decide)
  · exact claim_C4.2 .indexError

theorem lookup_isSome_of_wf {m : DMatrix} (hwf : m.wf) {i j : Nat}
    (hi : i < m.triangle.length) (hj : j < m.triangle.length) :
    (m.lookup i j).isSome := by
  have hmax : max i j < m.triangle.length := by omega
  obtain ⟨row, hrow⟩ : ∃ row, m.triangle[max i j]? = some row := by
    rw [List.getElem?_eq_getElem hmax]
    exact ⟨_, rfl⟩
  have hlen : row.length = max i j + 1 := hwf _ _ hrow
  have hminlt : min i j < row.length := by omega
  unfold DMatrix.lookup
  rw [hrow]
  show (row[min i j]?).isSome
  rw [List.getElem?_eq_getElem hminlt]
  rfl

theorem collectRow_isSome {m : DMatrix} {i : Nat} {js : List Nat}
    (h : ∀ j ∈ js, (m.lookup i j).isSome) : (collectRow m i js).isSome := by
  induction js with
  | nil => rfl
  | cons j js ih =>
    have h1 := h j (by simp)
    have h2 := ih (fun a ha => h a (by simp [ha]))
    unfold collectRow
    cases hl : m.lookup i j with
    | none =>
      rw [hl] at h1
      exact absurd h1 (by simp)
    | some d =>
      cases hc : collectRow m i js with
      | none =>
        rw [hc] at h2
        exact absurd h2 (by simp)
      | some ds => rfl

theorem collectRow_none {m : DMatrix} {i : Nat} {js : List Nat} (j : Nat)
    (hj : j ∈ js) (h : m.lookup i j = none) : collectRow m i js = none := by
  induction js with
  | nil => cases hj
  | cons a as ih =>
    unfold collectRow
    rcases List.mem_cons.mp hj with rfl | hmem
    · rw [h]
    · rw [ih hmem]
      cases m.lookup i a <;> rfl

theorem avgLoop_ok {m : DMatrix} {n : Nat} {is : List Nat}
    (h : ∀ i ∈ is,
      (collectRow m i ((List.range n).filter (fun j => i != j))).isSome) :
    ∃ out, avgLoop m n is = .ok out := by
  induction is with
  | nil => exact ⟨[], rfl⟩
  | cons i is ih =>
    have h1 := h i (by simp)
    obtain ⟨ds, hds⟩ := Option.isSome_iff_exists.mp h1
    obtain ⟨out, hout⟩ := ih (fun a ha => h a (by simp [ha]))
    refine ⟨npMean ds :: out, ?_⟩
    unfold avgLoop
    rw [hds, hout]

theorem avgLoop_error {m : DMatrix} {n : Nat} {is : List Nat} (i : Nat)
    (hi : i ∈ is)
    (h : collectRow m i ((List.range n).filter (fun j => i != j)) = none) :
    avgLoop m n is = .error .indexError := by
  induction is with
  | nil => cases hi
  | cons a as ih =>
    unfold avgLoop
    rcases List.mem_cons.mp hi with rfl | hmem
    · rw [h]
    · cases hc : collectRow m a ((List.range n).filter (fun j => a != j)) with
      | none => rfl
      | some ds => rw [ih hmem]

theorem avgDistances_ok_of_le {m : DMatrix} (hwf : m.wf) {n : Nat}
    (hn : n ≤ m.triangle.length) : ∃ out, avgDistances m n = .ok out := by
  apply avgLoop_ok
  intro i hi
  apply collectRow_isSome
  intro j hj
  have hi2 : i < n := List.mem_range.mp hi
  have hj2 : j < n := List.mem_range.mp (List.mem_filter.mp hj).1
  exact lookup_isSome_of_wf hwf (by omega) (by omega)

theorem avgDistances_error_of_gt {m : DMatrix} {n : Nat}
    (h2 : 2 ≤ n) (hgt : m.triangle.length < n) :
    avgDistances m n = .error .indexError := by
  apply avgLoop_error 0 (List.mem_range.mpr (by omega))
  apply collectRow_none (max 1 m.triangle.length)
  · rw [List.mem_filter]
    constructor
    · exact List.mem_range.mpr (by omega)
    · simp
      omega
  · unfold DMatrix.lookup
    rw [Nat.max_comm, Nat.max_assoc]
    rw [List.getElem?_eq_none (by omega)]

theorem wf_of_forall_lt {m : DMatrix}
    (h : ∀ i, i < m.triangle.length → (m.triangle.getD i []).length = i + 1) :
    m.wf := by
  intro i row hrow
  have hi : i < m.triangle.length := by
    by_contra hc
    rw [List.getElem?_eq_none (by omega)] at hrow
    exact Option.noConfusion hrow
  have h2 := h i hi
  rw [List.getD_eq_getElem?_getD, hrow] at h2
  exact h2

/-- Claim C5, counterexample to the claim as stated: with two sequence ids
against a 3×3 matrix (a dimension mismatch) `analyze_distances` does not
fail at all — it silently analyzes the leading 2×2 submatrix.  No
`DimensionMismatchError` exists anywhere in the code. -/
theorem claim_C5_counterexample :
    analyze_distances ⟨["a", "b", "c"], [[0], [1/4, 0], [1/2, 3/4, 0]]⟩
      ["a", "b"] 3 = .ok ⟨[], [some (1/4), some (1/4)], [none, none]⟩ := by
  with_unfolding_all rfl

/-- Claim C5 (amended): `analyze_distances` performs no dimension check.
With `N = len(sequence_ids)` against a well-formed triangular matrix of
`m` rows: if `N ≤ m` it returns a normal result computed on the leading
N×N submatrix; if `N ≥ 2` and `m < N` it fails with an uncaught
`IndexError` (not a `DimensionMismatchError`, which the code does not
define). -/
theorem claim_C5 (dm : DMatrix) (ids : List String) (t : ℚ) (hwf : dm.wf) :
    (ids.length ≤ dm.triangle.length →
      ∃ r, analyze_distances dm ids t = .ok r) ∧
    (2 ≤ ids.length → dm.triangle.length < ids.length →
      analyze_distances dm ids t = .error .indexError) := by
  constructor
  · intro hle
    obtain ⟨out, hout⟩ := avgDistances_ok_of_le hwf hle
    refine ⟨⟨(ids.zip (out.zip (zscore out))).filter (fun e => zGtB e.2.2 t),
      out, zscore out⟩, ?_⟩
    unfold analyze_distances
    rw [hout]
  · intro h2 hgt
    unfold analyze_distances
    rw [avgDistances_error_of_gt h2 hgt]

/-- Claim C5 witness: the amended behaviour at two concrete calls — ids
matching a 2×2 matrix (normal result) and two ids against a 1×1 matrix
(IndexError). -/
theorem claim_C5_witness :
    (∃ r, analyze_distances ⟨["a", "b"], [[0], [1/4, 0]]⟩ ["a", "b"] 3 =
      .ok r) ∧
    analyze_distances ⟨["a"], [[0]]⟩ ["a", "b"] 3 = .error .indexError := by
  constructor
  · exact (claim_C5 ⟨["a", "b"], [[0], [1/4, 0]]⟩ ["a", "b"] 3
      (wf_of_forall_lt (by decide))).1 (by decide)
  · exact (claim_C5 ⟨["a"], [[0]]⟩ ["a", "b"] 3
      (wf_of_forall_lt (by decide))).2 (by decide) (by decide)

theorem append3_ne (pre mid suf t : String)
    (hne : ∀ rest, pre.data ++ rest ≠ t.data) : pre ++ mid ++ suf ≠ t := by
  intro he
  apply hne (mid.data ++ suf.data)
  have h2 := congrArg String.data he
  rw [String.data_append, String.data_append, List.append_assoc] at h2
  exact h2

theorem header_chunks_ne_noOutlierLine (r : AlignResult) :
    ("Alignment: " ++ r.alignment_name ++ "\n") ≠ noOutlierLine ∧
    ("File: " ++ r.file_path ++ "\n") ≠ noOutlierLine ∧
    ("Sequences: " ++ toString r.num_sequences ++ "\n") ≠ noOutlierLine ∧
    ("Alignment Length: " ++ toString r.alignment_length ++ "\n") ≠
      noOutlierLine :=
  ⟨append3_ne _ _ _ _ (fun rest h => by simp [noOutlierLine] at h),
   append3_ne _ _ _ _ (fun rest h => by simp [noOutlierLine] at h),
   append3_ne _ _ _ _ (fun rest h => by simp [noOutlierLine] at h),
   append3_ne _ _ _ _ (fun rest h => by simp [noOutlierLine] at h)⟩

theorem header_chunks_ne_sepLine (r : AlignResult) :
    ("Alignment: " ++ r.alignment_name ++ "\n") ≠ sepLine ∧
    ("File: " ++ r.file_path ++ "\n") ≠ sepLine ∧
    ("Sequences: " ++ toString r.num_sequences ++ "\n") ≠ sepLine ∧
    ("Alignment Length: " ++ toString r.alignment_length ++ "\n") ≠ sepLine :=
  ⟨append3_ne _ _ _ _ (fun rest h => by simp [sepLine] at h),
   append3_ne _ _ _ _ (fun rest h => by simp [sepLine] at h),
   append3_ne _ _ _ _ (fun rest h => by simp [sepLine] at h),
   append3_ne _ _ _ _ (fun rest h => by simp [sepLine] at h)⟩

/-- A section for a result with no outliers contains the per-alignment
"no outliers" line exactly once. -/
theorem section_count_noOutlier (fmt : String × Option ℚ × Option (ℚ × ℚ) → String)
    (r : AlignResult) (hout : r.outliers = []) :
    (reportSection fmt r).count noOutlierLine = 1 := by
  obtain ⟨h1, h2, h3, h4⟩ := header_chunks_ne_noOutlierLine r
  have hsep : sepLine ≠ noOutlierLine := by decide
  unfold reportSection
  rw [hout]
  simp [List.count_append, List.count_cons, h1, h2, h3, h4, hsep]

/-- Every section contains the separator exactly once (given that the
outlier-line renderer never emits the separator). -/
theorem section_count_sep (fmt : String × Option ℚ × Option (ℚ × ℚ) → String)
    (hfmt : ∀ o, fmt o ≠ sepLine) (r : AlignResult) :
    (reportSection fmt r).count sepLine = 1 := by
  obtain ⟨h1, h2, h3, h4⟩ := header_chunks_ne_sepLine r
  have hno : noOutlierLine ≠ sepLine := by decide
  have hpot : ("\nPotential outlier sequences:\n" : String) ≠ sepLine := by decide
  have hmapfmt : (r.outliers.map fmt).count sepLine = 0 := by
    rw [List.count_eq_zero]
    intro hmem
    obtain ⟨o, _, ho⟩ := List.mem_map.mp hmem
    exact hfmt o ho
  have hplot : (match r.plot_path with
      | some p => if p.isEmpty then []
          else ["\nDistance plot saved to: " ++ p ++ "\n"]
      | none => ([] : List String)).count sepLine = 0 := by
    cases hp : r.plot_path with
    | none => rfl
    | some p =>
      by_cases hpe : p.isEmpty
      · simp [hpe]
      · have hne : ("\nDistance plot saved to: " ++ p ++ "\n") ≠ sepLine :=
          append3_ne _ _ _ _ (fun rest h => by simp [sepLine] at h)
        simp [hpe, List.count_cons, hne]
  unfold reportSection
  by_cases ho : r.outliers.isEmpty
  · simp [ho, List.count_append, List.count_cons, h1, h2, h3, h4, hno]
  · simp [ho, List.count_append, List.count_cons, h1, h2, h3, h4, hno, hpot,
      hmapfmt, hplot]

theorem count_flatMap_sections (a : String) (l : List AlignResult)
    (f : AlignResult → List String) :
    ((l.flatMap f).count a) = (l.map (fun r => (f r).count a)).sum := by
  induction l with
  | nil => rfl
  | cons r rs ih => simp [ih]

/-- Claim C9: in a run where every processed alignment has an empty outlier
set, the report contains the explicit whole-run "no outliers" statement,
and the per-alignment "no outliers" line appears exactly once per
processed alignment. -/
theorem claim_C9 (fmt : String × Option ℚ × Option (ℚ × ℚ) → String)
    (results : List (Option AlignResult))
    (h : ∀ r ∈ results.filterMap id, r.outliers = []) :
    noOutlierFooter ∈ write_report fmt results ∧
    (write_report fmt results).count noOutlierLine =
      (results.filterMap id).length := by
  have hall : (results.filterMap id).all (fun r => r.outliers.isEmpty) = true := by
    rw [List.all_eq_true]
    intro r hr
    simp [h r hr]
  constructor
  · unfold write_report
    rw [if_pos hall]
    simp
  · unfold write_report
    rw [if_pos hall]
    rw [List.count_append, List.count_append]
    have hhead : (["OUTLIER SEQUENCE ANALYSIS REPORT\n",
        "===============================\n\n"] : List String).count
          noOutlierLine = 0 := by decide
    have hfoot : ([noOutlierFooter] : List String).count noOutlierLine = 0 := by
      decide
    rw [hhead, hfoot, count_flatMap_sections]
    have hmap : (results.filterMap id).map
        (fun r => (reportSection fmt r).count noOutlierLine) =
        (results.filterMap id).map (fun _ => 1) :=
      List.map_congr_left (fun r hr => section_count_noOutlier fmt r (h r hr))
    rw [hmap]
    simp [List.map_const]

/-- Claim C10: a failed per-file result (`None`) is silently omitted: the
report is identical to the one over only the successful results, the
number of sections (separators) equals the number of successful results,
and a failed load indeed produces a `None` per-file result. -/
theorem claim_C10 (fmt : String × Option ℚ × Option (ℚ × ℚ) → String)
    (results : List (Option AlignResult)) (hfmt : ∀ o, fmt o ≠ sepLine) :
    write_report fmt results =
      write_report fmt ((results.filterMap id).map some) ∧
    (write_report fmt results).count sepLine =
      (results.filterMap id).length ∧
    (∀ (e : PyErr) (path : String) (th : ℚ),
      process_alignment_file (.error e) path th = .ok none) := by
  refine ⟨?_, ?_, ?_⟩
  · unfold write_report
    rw [show ((results.filterMap id).map some).filterMap id =
      results.filterMap id from by simp]
  · unfold write_report
    rw [List.count_append, List.count_append]
    have hhead : (["OUTLIER SEQUENCE ANALYSIS REPORT\n",
        "===============================\n\n"] : List String).count sepLine = 0 := by
      decide
    have hfoot : (if (results.filterMap id).all (fun r => r.outliers.isEmpty)
        then [noOutlierFooter] else []).count sepLine = 0 := by
      split
      · decide
      · rfl
    rw [hhead, hfoot, count_flatMap_sections]
    have hmap : (results.filterMap id).map
        (fun r => (reportSection fmt r).count sepLine) =
        (results.filterMap id).map (fun _ => 1) :=
      List.map_congr_left (fun r _ => section_count_sep fmt hfmt r)
    rw [hmap]
    simp [List.map_const]
  · intro e path th
    rfl

/-- A processed, outlier-free result used by the report witnesses. -/
def resGene1 : AlignResult := ⟨"gene1", "gene1.fasta", 2, 4, [], none⟩

/-- Claim C10 witness: a run with one failed file and one processed,
outlier-free alignment, with the concrete outlier-line renderer shape. -/
theorem claim_C10_witness :
    write_report (fun o => "  - " ++ o.1 ++ "\n")
        [none, some resGene1] =
      write_report (fun o => "  - " ++ o.1 ++ "\n")
        (([none, some resGene1].filterMap
          id).map some) ∧
    (write_report (fun o => "  - " ++ o.1 ++ "\n")
        [none, some resGene1]).count sepLine =
      ([none, some resGene1].filterMap
        id).length ∧
    (∀ (e : PyErr) (path : String) (th : ℚ),
      process_alignment_file (.error e) path th = .ok none) :=
  claim_C10 (fun o => "  - " ++ o.1 ++ "\n")
    [none, some resGene1]
    (fun o => append3_ne _ _ _ _ (fun rest h => by simp [sepLine] at h))

/-- Claim C9 witness: the concrete two-file run of the C10 witness, with
one failed file and one processed alignment with no outliers. -/
theorem claim_C9_witness :
    noOutlierFooter ∈ write_report (fun o => "  - " ++ o.1 ++ "\n")
      [none, some resGene1] ∧
    (write_report (fun o => "  - " ++ o.1 ++ "\n")
        [none, some resGene1]).count
      noOutlierLine =
      ([none, some resGene1].filterMap
        id).length :=
  claim_C9 (fun o => "  - " ++ o.1 ++ "\n")
    [none, some resGene1]
    (by intro r hr; simp at hr; rw [hr]; rfl)

end MsaOutlier
